import Mathlib

/-!
A verification development for the sum-stack falling-block puzzle
implemented in `src/src/App.tsx`.  The React component's game logic is
shallowly embedded: the grid is a list of rows of optional blocks, the
`Math.random` calls are modelled by an explicit draw stream `σ : Nat → Nat`
(each call consumes one draw), and the event handlers become pure state
transformers.  A small-step relation `Step` together with `Reachable`
models the sequence of React events (clicks, the 100 ms interval tick, the
300 ms resolution timeout, pause/reset/menu buttons) including the
`useEffect` that re-checks game over after every grid change.
-/

set_option maxHeartbeats 1000000

namespace SumStack

/-- `COLS` in `App.tsx`: number of grid columns. -/
def COLS : Nat := 6

/-- `ROWS` in `App.tsx`: number of grid rows. -/
def ROWS : Nat := 10

/-- `INITIAL_ROWS` in `App.tsx`: rows populated at the start of a round. -/
def INITIAL_ROWS : Nat := 3

/-- `TARGET_MIN` in `App.tsx`. -/
def TARGET_MIN : Nat := 10

/-- `TARGET_MAX` in `App.tsx`. -/
def TARGET_MAX : Nat := 25

/-- `BLOCK_MIN` in `App.tsx`. -/
def BLOCK_MIN : Nat := 1

/-- `BLOCK_MAX` in `App.tsx`. -/
def BLOCK_MAX : Nat := 9

/-- `TIME_MODE_INTERVAL` in `App.tsx`: 8000 ms per injected row in timed mode. -/
def TIME_MODE_INTERVAL : Nat := 8000

/-- The `GameMode` union type `'classic' | 'time'`. -/
inductive GameMode
  | classic
  | time
deriving DecidableEq

/-- The `Block` interface: the random base-36 `id` string is modelled as the
raw `Math.random` draw (a `Nat`); `value` and `isSelected` as in the source. -/
structure Block where
  id : Nat
  value : Nat
  isSelected : Bool
deriving DecidableEq

/-- `type Grid = (Block | null)[][]`: rows of optional blocks, row 0 on top. -/
abbrev Grid := List (List (Option Block))

/-- `generateBlock` in `App.tsx`.  It calls `Math.random` twice: draw `k` of
the stream `σ` becomes the id, draw `k+1` the value
(`Math.floor(Math.random() * (BLOCK_MAX - BLOCK_MIN + 1)) + BLOCK_MIN`,
i.e. a residue in `[0, 8]` shifted to `[1, 9]`). -/
def generateBlock (σ : Nat → Nat) (k : Nat) : Block :=
  { id := σ k
    value := σ (k + 1) % (BLOCK_MAX - BLOCK_MIN + 1) + BLOCK_MIN
    isSelected := false }

/-- The value computed by `generateTarget` in `App.tsx` from one
`Math.random` draw: a residue in `[0, 15]` shifted to `[10, 25]`. -/
def generateTargetVal (rt : Nat) : Nat :=
  rt % (TARGET_MAX - TARGET_MIN + 1) + TARGET_MIN

/-- The game-over predicate `grid[0].some(cell => cell !== null)`
(row 0 has at least one occupied cell); false on an empty grid. -/
def isTopRowOccupied (g : Grid) : Bool :=
  (g.headD []).any (fun cell => cell.isSome)

/-- The grid transformation inside `addRow`'s `setGrid` updater: if row 0 is
occupied the grid is returned unchanged; otherwise every row `i < ROWS - 1`
takes the content previously at row `i+1` and the bottom row becomes the
freshly generated row `fresh`. -/
def addRowGrid (fresh : List Block) (g : Grid) : Grid :=
  if isTopRowOccupied g then g
  else (List.range g.length).map (fun i =>
    if i = ROWS - 1 then fresh.map some else g.getD (i + 1) [])

/-- The per-cell removal step of `handleSuccess`:
`cell && ids.has(cell.id) ? null : cell`. -/
def clearCell (ids : List Nat) (cell : Option Block) : Option Block :=
  match cell with
  | some b => if b.id ∈ ids then none else some b
  | none => none

/-- The first phase of `handleSuccess`'s grid update: map `clearCell` over
every cell of the grid. -/
def removeIds (ids : List Nat) (g : Grid) : Grid :=
  g.map (fun row => row.map (clearCell ids))

/-- Column `c` of the grid, top to bottom (out-of-range cells read as
empty, as the gravity loop in `handleSuccess` indexes `nextGrid[r][c]`). -/
def getCol (g : Grid) (c : Nat) : List (Option Block) :=
  g.map (fun row => row.getD c none)

/-- The gravity loop of `handleSuccess` on one column: `colBlocks` collects
the column's blocks from the bottom row upward, and then cell `r` (top to
bottom) is rewritten to `colBlocks[ROWS - 1 - r] || null`. -/
def gravityCol (col : List (Option Block)) : List (Option Block) :=
  (List.range ROWS).map (fun r => (col.reverse.filterMap id)[ROWS - 1 - r]?)

/-- The complete grid update of `handleSuccess`: remove the matched ids,
then rebuild every cell `(r, c)` from the gravity-compacted column `c`
of the cleared grid.  This is the spec's `clearAndCompact`. -/
def clearAndCompact (ids : List Nat) (g : Grid) : Grid :=
  (List.range ROWS).map (fun r =>
    (List.range COLS).map (fun c =>
      (gravityCol (getCol (removeIds ids g) c)).getD r none))

/-- The surviving blocks of column `c`, top to bottom: the column's blocks
whose id is not scheduled for removal. -/
def survivorsCol (ids : List Nat) (g : Grid) (c : Nat) : List Block :=
  ((getCol g c).filterMap id).filter (fun b => !decide (b.id ∈ ids))

/-- A grid of the shape the component always maintains:
`ROWS` rows of `COLS` cells each. -/
def WellFormed (g : Grid) : Prop :=
  g.length = ROWS ∧ ∀ row ∈ g, row.length = COLS

instance : DecidablePred WellFormed := fun g => by
  unfold WellFormed; infer_instance

/-- A column with no floating blocks: all empty cells on top, all blocks
compacted at the bottom in order. -/
def ColCompacted (col : List (Option Block)) : Prop :=
  col = List.replicate (col.length - (col.filterMap id).length) none
    ++ (col.filterMap id).map some

instance : DecidablePred ColCompacted := fun col => by
  unfold ColCompacted; infer_instance

/-- The cell at row `r`, column `c` (empty when out of range). -/
def cellAt (g : Grid) (r c : Nat) : Option Block :=
  (g.getD r []).getD c none

lemma range_map_getD {α : Type _} (l : List α) (d : α) :
    (List.range l.length).map (fun i => l.getD i d) = l := by
  apply List.ext_getElem?
  intro n
  rw [List.getElem?_map]
  by_cases h : n < l.length
  · rw [List.getElem?_range h]
    simp [List.getD_eq_getElem?_getD, List.getElem?_eq_getElem h]
  · rw [List.getElem?_eq_none (by simpa using le_of_not_lt h),
      List.getElem?_eq_none (le_of_not_lt h)]
    rfl

lemma getD_map_range {α : Type _} (f : Nat → α) (d : α) {c n : Nat} (h : c < n) :
    ((List.range n).map f).getD c d = f c := by
  simp [List.getD_eq_getElem?_getD, List.getElem?_map, List.getElem?_range h]

lemma gravityCol_length (col : List (Option Block)) :
    (gravityCol col).length = ROWS := by
  simp [gravityCol]

lemma getCol_length (g : Grid) (c : Nat) : (getCol g c).length = g.length := by
  simp [getCol]

lemma getCol_clearAndCompact (ids : List Nat) (g : Grid) {c : Nat} (hc : c < COLS) :
    getCol (clearAndCompact ids g) c = gravityCol (getCol (removeIds ids g) c) := by
  have h1 : getCol (clearAndCompact ids g) c
      = (List.range ROWS).map (fun r =>
          (gravityCol (getCol (removeIds ids g) c)).getD r none) := by
    show ((List.range ROWS).map _).map _ = _
    rw [List.map_map]
    refine List.map_congr_left ?_
    intro r _
    exact getD_map_range _ none hc
  rw [h1]
  have h2 := range_map_getD (gravityCol (getCol (removeIds ids g) c)) none
  rwa [gravityCol_length] at h2

lemma clearCell_nil (cell : Option Block) : clearCell [] cell = cell := by
  cases cell <;> simp [clearCell]

lemma removeIds_nil (g : Grid) : removeIds [] g = g := by
  unfold removeIds
  have hrow : ∀ row ∈ g, row.map (clearCell []) = row := by
    intro row _
    calc row.map (clearCell [])
        = row.map id := List.map_congr_left (fun cell _ => clearCell_nil cell)
      _ = row := List.map_id row
  calc g.map (fun row => row.map (clearCell []))
      = g.map id := List.map_congr_left (fun row h => hrow row h)
    _ = g := List.map_id g

lemma filterMap_map_clearCell (ids : List Nat) (col : List (Option Block)) :
    (col.map (clearCell ids)).filterMap id
      = (col.filterMap id).filter (fun b => !decide (b.id ∈ ids)) := by
  induction col with
  | nil => rfl
  | cons cell col ih =>
    cases cell with
    | none => simpa [clearCell] using ih
    | some b =>
      by_cases hb : b.id ∈ ids
      · simpa [clearCell, hb] using ih
      · simpa [clearCell, hb] using ih

lemma getD_map_clearCell (ids : List Nat) (row : List (Option Block)) (c : Nat) :
    (row.map (clearCell ids)).getD c none = clearCell ids (row.getD c none) := by
  by_cases h : c < row.length
  · simp [List.getD_eq_getElem?_getD, List.getElem?_map, List.getElem?_eq_getElem h]
  · rw [List.getD_eq_getElem?_getD, List.getD_eq_getElem?_getD,
      List.getElem?_eq_none (by simpa using le_of_not_lt h),
      List.getElem?_eq_none (le_of_not_lt h)]
    rfl

lemma getCol_removeIds (ids : List Nat) (g : Grid) (c : Nat) :
    getCol (removeIds ids g) c = (getCol g c).map (clearCell ids) := by
  unfold getCol removeIds
  rw [List.map_map, List.map_map]
  exact List.map_congr_left (fun row _ => getD_map_clearCell ids row c)

lemma gravityCol_eq (col : List (Option Block))
    (h : (col.filterMap id).length ≤ ROWS) :
    gravityCol col
      = List.replicate (ROWS - (col.filterMap id).length) none
          ++ (col.filterMap id).map some := by
  unfold gravityCol
  rw [List.filterMap_reverse]
  apply List.ext_getElem?
  intro i
  by_cases hi : i < ROWS
  · rw [List.getElem?_map, List.getElem?_range hi, Option.map_some']
    by_cases h2 : i < ROWS - (col.filterMap id).length
    · rw [List.getElem?_eq_none
        (by rw [List.length_reverse]; omega)]
      rw [List.getElem?_append_left (by simpa using h2),
        List.getElem?_replicate_of_lt (by simpa using h2)]
    · have hge : ROWS - (col.filterMap id).length ≤ i := le_of_not_lt h2
      have hidx : ROWS - 1 - i < (col.filterMap id).length := by omega
      rw [List.getElem?_reverse (by simpa using hidx)]
      have hlen1 : (List.replicate (ROWS - (col.filterMap id).length)
          (none : Option Block)).length ≤ i := by
        simpa using hge
      rw [List.getElem?_append_right hlen1, List.length_replicate]
      have harith : (col.filterMap id).length - 1 - (ROWS - 1 - i)
          = i - (ROWS - (col.filterMap id).length) := by omega
      rw [harith, List.getElem?_map]
      have hlt : i - (ROWS - (col.filterMap id).length) < (col.filterMap id).length := by
        omega
      rw [List.getElem?_eq_getElem hlt, Option.map_some']
  · rw [List.getElem?_eq_none (by simpa using le_of_not_lt hi),
      List.getElem?_eq_none (by simp; omega)]

lemma survivorsCol_eq (ids : List Nat) (g : Grid) (c : Nat) :
    (getCol (removeIds ids g) c).filterMap id = survivorsCol ids g c := by
  rw [getCol_removeIds, filterMap_map_clearCell]
  rfl

lemma survivorsCol_length_le (ids : List Nat) (g : Grid) (c : Nat)
    (hlen : g.length = ROWS) : (survivorsCol ids g c).length ≤ ROWS := by
  unfold survivorsCol
  calc (((getCol g c).filterMap id).filter _).length
      ≤ ((getCol g c).filterMap id).length := List.length_filter_le _ _
    _ ≤ (getCol g c).length := List.length_filterMap_le _ _
    _ = ROWS := by rw [getCol_length, hlen]

lemma getCol_clearAndCompact_eq (ids : List Nat) (g : Grid)
    (hlen : g.length = ROWS) {c : Nat} (hc : c < COLS) :
    getCol (clearAndCompact ids g) c
      = List.replicate (ROWS - (survivorsCol ids g c).length) none
          ++ (survivorsCol ids g c).map some := by
  rw [getCol_clearAndCompact ids g hc]
  have hle : ((getCol (removeIds ids g) c).filterMap id).length ≤ ROWS := by
    rw [survivorsCol_eq]
    exact survivorsCol_length_le ids g c hlen
  rw [gravityCol_eq _ hle, survivorsCol_eq]

lemma getD_none_mem {l : List (Option Block)} {r : Nat} {b : Block}
    (h : l.getD r none = some b) : some b ∈ l := by
  rw [List.getD_eq_getElem?_getD] at h
  cases hl : l[r]? with
  | none => rw [hl] at h; simp at h
  | some x =>
    rw [hl] at h
    simp only [Option.getD_some] at h
    subst h
    exact List.getElem?_mem hl

lemma cellAt_eq_getCol (g : Grid) (r c : Nat) :
    cellAt g r c = (getCol g c).getD r none := by
  unfold cellAt getCol
  by_cases h : r < g.length
  · simp [List.getD_eq_getElem?_getD, List.getElem?_map, List.getElem?_eq_getElem h]
  · have h1 : g.getD r [] = [] := by
      rw [List.getD_eq_getElem?_getD, List.getElem?_eq_none (le_of_not_lt h)]
      rfl
    have h2 : (List.map (fun row => row.getD c none) g).getD r none = none := by
      rw [List.getD_eq_getElem?_getD,
        List.getElem?_eq_none (by simpa using le_of_not_lt h)]
      rfl
    rw [h1, h2]
    rfl

lemma clearAndCompact_length (ids : List Nat) (g : Grid) :
    (clearAndCompact ids g).length = ROWS := by
  simp [clearAndCompact]

lemma clearAndCompact_rows (ids : List Nat) (g : Grid) :
    ∀ row ∈ clearAndCompact ids g, row.length = COLS := by
  intro row hrow
  unfold clearAndCompact at hrow
  rw [List.mem_map] at hrow
  obtain ⟨r, _, hr⟩ := hrow
  subst hr
  simp

lemma mem_survivorsCol_not_removed {ids : List Nat} {g : Grid} {c : Nat} {b : Block}
    (h : b ∈ survivorsCol ids g c) : b.id ∉ ids := by
  unfold survivorsCol at h
  have := (List.mem_filter.1 h).2
  simpa using this

lemma cellAt_clearAndCompact_notMem (ids : List Nat) (g : Grid)
    (hlen : g.length = ROWS) (r c : Nat) (b : Block)
    (h : cellAt (clearAndCompact ids g) r c = some b) : b.id ∉ ids := by
  by_cases hc : c < COLS
  · rw [cellAt_eq_getCol, getCol_clearAndCompact_eq ids g hlen hc] at h
    have hmem := getD_none_mem h
    rcases List.mem_append.1 hmem with hrep | hmap
    · exact absurd (List.eq_of_mem_replicate hrep) (by simp)
    · rw [List.mem_map] at hmap
      obtain ⟨a, ha, hab⟩ := hmap
      have : a = b := by simpa using hab
      subst this
      exact mem_survivorsCol_not_removed ha
  · exfalso
    rw [cellAt_eq_getCol] at h
    have hmem := getD_none_mem h
    unfold getCol at hmem
    rw [List.mem_map] at hmem
    obtain ⟨row, hrowmem, hroweq⟩ := hmem
    have hrl : row.length = COLS := clearAndCompact_rows ids g row hrowmem
    rw [List.getD_eq_getElem?_getD,
      List.getElem?_eq_none (by rw [hrl]; exact le_of_not_lt hc)] at hroweq
    simp at hroweq

lemma reassemble (g : Grid) (hlen : g.length = ROWS)
    (hrows : ∀ row ∈ g, row.length = COLS) :
    (List.range ROWS).map (fun r =>
      (List.range COLS).map (fun c => (getCol g c).getD r none)) = g := by
  apply List.ext_getElem?
  intro i
  rw [List.getElem?_map]
  by_cases hi : i < ROWS
  · have hig : i < g.length := by omega
    rw [List.getElem?_range hi, Option.map_some', List.getElem?_eq_getElem hig]
    congr 1
    have hcell : ∀ c, (getCol g c).getD i none = (g[i]).getD c none := by
      intro c
      simp [getCol, List.getD_eq_getElem?_getD, List.getElem?_map,
        List.getElem?_eq_getElem hig]
    rw [List.map_congr_left (fun c _ => hcell c)]
    have hrow : (g[i]).length = COLS := hrows _ (List.getElem_mem hig)
    have := range_map_getD (g[i]) none
    rwa [hrow] at this
  · rw [List.getElem?_eq_none (by simpa using le_of_not_lt hi),
      List.getElem?_eq_none (by omega)]
    rfl

lemma clearAndCompact_fixed (ids : List Nat) (g : Grid)
    (hlen : g.length = ROWS) (hrows : ∀ row ∈ g, row.length = COLS)
    (hrem : removeIds ids g = g)
    (hcomp : ∀ c, c < COLS → ColCompacted (getCol g c)) :
    clearAndCompact ids g = g := by
  unfold clearAndCompact
  rw [hrem]
  have hgrav : ∀ c, c < COLS → gravityCol (getCol g c) = getCol g c := by
    intro c hc
    have hle : ((getCol g c).filterMap id).length ≤ ROWS := by
      have h1 := List.length_filterMap_le id (getCol g c)
      rw [getCol_length, hlen] at h1
      exact h1
    rw [gravityCol_eq _ hle]
    have hc2 := hcomp c hc
    unfold ColCompacted at hc2
    rw [getCol_length, hlen] at hc2
    exact hc2.symm
  have hrowfun : ∀ r, (List.range COLS).map (fun c => (gravityCol (getCol g c)).getD r none)
      = (List.range COLS).map (fun c => (getCol g c).getD r none) := by
    intro r
    refine List.map_congr_left ?_
    intro c hc
    rw [hgrav c (List.mem_range.1 hc)]
  calc (List.range ROWS).map (fun r =>
        (List.range COLS).map (fun c => (gravityCol (getCol g c)).getD r none))
      = (List.range ROWS).map (fun r =>
          (List.range COLS).map (fun c => (getCol g c).getD r none)) :=
        List.map_congr_left (fun r _ => hrowfun r)
    _ = g := reassemble g hlen hrows

lemma clearCell_of_mem_gravityCol {ids : List Nat} {col : List (Option Block)}
    {cell : Option Block}
    (h : cell ∈ gravityCol (col.map (clearCell ids))) :
    clearCell ids cell = cell := by
  unfold gravityCol at h
  rw [List.mem_map] at h
  obtain ⟨r, _, hr⟩ := h
  subst hr
  cases he : ((col.map (clearCell ids)).reverse.filterMap id)[ROWS - 1 - r]? with
  | none => rfl
  | some b =>
    have hb : b ∈ (col.map (clearCell ids)).reverse.filterMap id :=
      List.getElem?_mem he
    rw [List.filterMap_reverse, filterMap_map_clearCell, List.mem_reverse,
      List.mem_filter] at hb
    have : b.id ∉ ids := by simpa using hb.2
    simp [clearCell, this]

lemma removeIds_clearAndCompact (ids : List Nat) (g : Grid) :
    removeIds ids (clearAndCompact ids g) = clearAndCompact ids g := by
  unfold removeIds
  have hrow : ∀ row ∈ clearAndCompact ids g, row.map (clearCell ids) = row := by
    intro row hrow
    have hcell : ∀ cell ∈ row, clearCell ids cell = cell := by
      intro cell hcell
      unfold clearAndCompact at hrow
      rw [List.mem_map] at hrow
      obtain ⟨r, _, hr⟩ := hrow
      subst hr
      rw [List.mem_map] at hcell
      obtain ⟨c, _, hc⟩ := hcell
      subst hc
      by_cases hrr : r < (gravityCol (getCol (removeIds ids g) c)).length
      · have hmem : (gravityCol (getCol (removeIds ids g) c)).getD r none
            ∈ gravityCol (getCol (removeIds ids g) c) := by
          rw [List.getD_eq_getElem?_getD, List.getElem?_eq_getElem hrr,
            Option.getD_some]
          exact List.getElem_mem hrr
        rw [getCol_removeIds] at hmem ⊢
        exact clearCell_of_mem_gravityCol hmem
      · rw [List.getD_eq_getElem?_getD,
          List.getElem?_eq_none (le_of_not_lt hrr)]
        rfl
    calc row.map (clearCell ids)
        = row.map id := List.map_congr_left (fun cell hc => hcell cell hc)
      _ = row := List.map_id row
  calc (clearAndCompact ids g).map (fun row => row.map (clearCell ids))
      = (clearAndCompact ids g).map id :=
        List.map_congr_left (fun row h => hrow row h)
    _ = clearAndCompact ids g := List.map_id _

lemma filterMap_id_replicate_none (n : Nat) :
    (List.replicate n (none : Option Block)).filterMap id = [] := by
  induction n with
  | zero => rfl
  | succ n ih => rw [List.replicate_succ, List.filterMap_cons]; simp [ih]

lemma filterMap_id_map_some (l : List Block) :
    (l.map some).filterMap id = l := by
  rw [List.filterMap_map]
  exact List.filterMap_some l

lemma colCompacted_clearAndCompact (ids : List Nat) (g : Grid)
    (hlen : g.length = ROWS) {c : Nat} (hc : c < COLS) :
    ColCompacted (getCol (clearAndCompact ids g) c) := by
  unfold ColCompacted
  rw [getCol_clearAndCompact_eq ids g hlen hc]
  have hfm : (List.replicate (ROWS - (survivorsCol ids g c).length) (none : Option Block)
      ++ (survivorsCol ids g c).map some).filterMap id = survivorsCol ids g c := by
    rw [List.filterMap_append, filterMap_id_replicate_none, filterMap_id_map_some]
    rfl
  rw [hfm]
  have hS := survivorsCol_length_le ids g c hlen
  have hlen2 : (List.replicate (ROWS - (survivorsCol ids g c).length) (none : Option Block)
      ++ (survivorsCol ids g c).map some).length = ROWS := by
    simp
    omega
  rw [hlen2]

lemma clearAndCompact_idem (ids : List Nat) (g : Grid) (hlen : g.length = ROWS) :
    clearAndCompact ids (clearAndCompact ids g) = clearAndCompact ids g :=
  clearAndCompact_fixed ids (clearAndCompact ids g)
    (clearAndCompact_length ids g) (clearAndCompact_rows ids g)
    (removeIds_clearAndCompact ids g)
    (fun _ hc => colCompacted_clearAndCompact ids g hlen hc)

/-- The component's `useState` variables, gathered into one record.  The
`Set<string>` values (`selectedIds`, `clearingIds`) are modelled as lists of
the modelled ids. -/
structure GameState where
  grid : Grid
  target : Nat
  selectedIds : List Nat
  score : Nat
  highScore : Nat
  isGameOver : Bool
  gameStarted : Bool
  mode : GameMode
  timeLeft : Nat
  isPaused : Bool
  clearingIds : List Nat
  isProcessing : Bool
deriving DecidableEq

/-- The initial values of all `useState` hooks (before any event). -/
def initialState : GameState :=
  { grid := [], target := 0, selectedIds := [], score := 0, highScore := 0,
    isGameOver := false, gameStarted := false, mode := GameMode.classic,
    timeLeft := TIME_MODE_INTERVAL, isPaused := false, clearingIds := [],
    isProcessing := false }

/-- The grid built by `initGrid`: all cells empty except the bottom
`INITIAL_ROWS` rows, whose generated blocks are the parameter `rows`. -/
def mkInitialGrid (rows : List (List Block)) : Grid :=
  List.replicate (ROWS - INITIAL_ROWS) (List.replicate COLS none)
    ++ rows.map (fun row => row.map some)

/-- `initGrid` in `App.tsx`: fresh grid, fresh target, score 0, game-over
cleared, selection cleared, timer reset, processing flag cleared.  Note that
it touches neither `isPaused` nor `clearingIds` nor `mode`. -/
def initGridState (rows : List (List Block)) (rt : Nat) (s : GameState) : GameState :=
  { s with grid := mkInitialGrid rows
           target := generateTargetVal rt
           score := 0
           isGameOver := false
           selectedIds := []
           timeLeft := TIME_MODE_INTERVAL
           isProcessing := false }

/-- `startGame` in `App.tsx`: set the mode, mark the game started, and run
`initGrid`. -/
def startGame (m : GameMode) (rows : List (List Block)) (rt : Nat)
    (s : GameState) : GameState :=
  initGridState rows rt { s with mode := m, gameStarted := true }

/-- `resetGame` in `App.tsx`: it only calls `initGrid`. -/
def resetGame (rows : List (List Block)) (rt : Nat) (s : GameState) : GameState :=
  initGridState rows rt s

/-- `addRow` in `App.tsx` (the spec's `injectRow`): apply the grid shift
(suppressed when row 0 is occupied) and then unconditionally reset
`timeLeft` to `TIME_MODE_INTERVAL`. -/
def addRow (fresh : List Block) (s : GameState) : GameState :=
  { s with grid := addRowGrid fresh s.grid, timeLeft := TIME_MODE_INTERVAL }

/-- The `useEffect` on `[grid]` that sets `isGameOver` when
`grid.length > 0 && grid[0].some(cell => cell !== null)`. -/
def checkGameOver (s : GameState) : GameState :=
  if 0 < s.grid.length ∧ isTopRowOccupied s.grid = true then
    { s with isGameOver := true }
  else s

/-- The sum computation in `handleBlockClick`: fold over `grid.flat()`,
adding `b.value` for every present block whose id is selected. -/
def gridSum (g : Grid) (sel : List Nat) : Nat :=
  g.flatten.foldl (fun acc cell =>
    match cell with
    | some b => if b.id ∈ sel then acc + b.value else acc
    | none => acc) 0

/-- Membership flip on the selection set (`Set.delete` / `Set.add`). -/
def toggleId (sel : List Nat) (i : Nat) : List Nat :=
  if i ∈ sel then sel.erase i else i :: sel

/-- The synchronous part of `handleSuccess`: guard on `isProcessing`, then
set the processing flag, record the clearing ids, and add
`ids.size * 10` to the score. -/
def handleSuccessSync (ids : List Nat) (s : GameState) : GameState :=
  if s.isProcessing = true then s
  else { s with isProcessing := true
                clearingIds := ids
                score := s.score + ids.length * 10 }

/-- The per-click outcome of the selection engine (the spec's
Match / Overflow / Pending trichotomy, plus the guarded no-op). -/
inductive ClickOutcome
  | noop
  | matched (ids : List Nat)
  | overflow
  | pending
deriving DecidableEq

/-- `handleBlockClick` in `App.tsx`: guard, toggle membership, recompute the
sum over blocks still present in the grid, then branch on sum vs target. -/
def handleBlockClick (b : Block) (s : GameState) : GameState × ClickOutcome :=
  if s.isGameOver = true ∨ s.isPaused = true ∨ b.id ∈ s.clearingIds
      ∨ s.isProcessing = true then
    (s, ClickOutcome.noop)
  else
    if gridSum s.grid (toggleId s.selectedIds b.id) = s.target then
      (handleSuccessSync (toggleId s.selectedIds b.id) s,
        ClickOutcome.matched (toggleId s.selectedIds b.id))
    else if s.target < gridSum s.grid (toggleId s.selectedIds b.id) then
      ({ s with selectedIds := [] }, ClickOutcome.overflow)
    else
      ({ s with selectedIds := toggleId s.selectedIds b.id }, ClickOutcome.pending)

/-- The `setTimeout` body of `handleSuccess`, 300 ms after a match: apply
clear + gravity, reset `clearingIds` and `selectedIds`, regenerate the
target from draw `rt`, clear the processing flag, and in classic mode call
`addRow` with the fresh bottom row `fresh`. -/
def resolveTimeout (ids : List Nat) (rt : Nat) (fresh : List Block)
    (s : GameState) : GameState :=
  if s.mode = GameMode.classic then
    addRow fresh
      { s with grid := clearAndCompact ids s.grid
               clearingIds := []
               selectedIds := []
               target := generateTargetVal rt
               isProcessing := false }
  else
    { s with grid := clearAndCompact ids s.grid
             clearingIds := []
             selectedIds := []
             target := generateTargetVal rt
             isProcessing := false }

/-- One firing of the 100 ms interval of the timed mode: active only while
`gameStarted && mode === 'time' && !isGameOver && !isPaused`; at
`timeLeft <= 100` it calls `addRow` (afterwards the game-over effect runs),
otherwise it decrements `timeLeft` by 100. -/
def tickStep (fresh : List Block) (s : GameState) : GameState :=
  if s.gameStarted = true ∧ s.mode = GameMode.time ∧ s.isGameOver = false
      ∧ s.isPaused = false then
    if s.timeLeft ≤ 100 then checkGameOver (addRow fresh s)
    else { s with timeLeft := s.timeLeft - 100 }
  else s

/-- The events the component processes.  Random data (fresh blocks, target
draws) appears as parameters; grid-mutating events end with the game-over
effect `checkGameOver`, which React runs after every grid change. -/
inductive Step : GameState → GameState → Prop
  | start (s : GameState) (m : GameMode) (rows : List (List Block)) (rt : Nat)
      (hrows : rows.length = INITIAL_ROWS ∧ ∀ row ∈ rows, row.length = COLS) :
      Step s (checkGameOver (startGame m rows rt s))
  | click (s : GameState) (b : Block) :
      Step s (handleBlockClick b s).1
  | resolve (s : GameState) (ids : List Nat) (rt : Nat) (fresh : List Block)
      (hfresh : fresh.length = COLS) :
      Step s (checkGameOver (resolveTimeout ids rt fresh s))
  | tick (s : GameState) (fresh : List Block) (hfresh : fresh.length = COLS) :
      Step s (tickStep fresh s)
  | pauseToggle (s : GameState) :
      Step s { s with isPaused := !s.isPaused }
  | reset (s : GameState) (rows : List (List Block)) (rt : Nat)
      (hrows : rows.length = INITIAL_ROWS ∧ ∀ row ∈ rows, row.length = COLS) :
      Step s (checkGameOver (resetGame rows rt s))
  | returnToMenu (s : GameState) :
      Step s { s with gameStarted := false }
  | syncHighScore (s : GameState) (h : s.highScore < s.score) :
      Step s { s with highScore := s.score }

/-- States reachable from the initial render by a sequence of events. -/
inductive Reachable : GameState → Prop
  | init : Reachable initialState
  | step {s s' : GameState} : Reachable s → Step s s' → Reachable s'

lemma isTopRowOccupied_nil : isTopRowOccupied [] = false := rfl

lemma isTopRowOccupied_pos {g : Grid} (h : isTopRowOccupied g = true) :
    0 < g.length := by
  cases g with
  | nil => rw [isTopRowOccupied_nil] at h; cases h
  | cons a l => simp

lemma checkGameOver_grid (s : GameState) : (checkGameOver s).grid = s.grid := by
  unfold checkGameOver
  split <;> rfl

lemma checkGameOver_timeLeft (s : GameState) :
    (checkGameOver s).timeLeft = s.timeLeft := by
  unfold checkGameOver
  split <;> rfl

lemma checkGameOver_isGameOver (s : GameState) :
    (checkGameOver s).isGameOver = (s.isGameOver || isTopRowOccupied s.grid) := by
  unfold checkGameOver
  split
  · next h => simp [h.2]
  · next h =>
    cases hocc : isTopRowOccupied s.grid
    · simp
    · exact absurd ⟨isTopRowOccupied_pos hocc, hocc⟩ h

lemma isTopRowOccupied_mkInitialGrid (rows : List (List Block)) :
    isTopRowOccupied (mkInitialGrid rows) = false := by
  show ((List.replicate (ROWS - INITIAL_ROWS) (List.replicate COLS (none : Option Block))
    ++ rows.map (fun row => row.map some)).headD []).any (fun cell => cell.isSome)
      = false
  rw [show ROWS - INITIAL_ROWS = 7 from rfl]
  rw [show List.replicate 7 (List.replicate COLS (none : Option Block))
      = List.replicate COLS none :: List.replicate 6 (List.replicate COLS none)
      from rfl]
  rw [List.cons_append, List.headD_cons]
  decide

lemma handleBlockClick_grid (b : Block) (s : GameState) :
    (handleBlockClick b s).1.grid = s.grid := by
  unfold handleBlockClick handleSuccessSync
  split
  · rfl
  · split
    · split <;> rfl
    · split <;> rfl

lemma handleBlockClick_isGameOver (b : Block) (s : GameState) :
    (handleBlockClick b s).1.isGameOver = s.isGameOver := by
  unfold handleBlockClick handleSuccessSync
  split
  · rfl
  · split
    · split <;> rfl
    · split <;> rfl

lemma startGame_grid (m : GameMode) (rows : List (List Block)) (rt : Nat)
    (s : GameState) : (startGame m rows rt s).grid = mkInitialGrid rows := rfl

lemma startGame_isGameOver (m : GameMode) (rows : List (List Block)) (rt : Nat)
    (s : GameState) : (startGame m rows rt s).isGameOver = false := rfl

lemma resolveTimeout_isGameOver (ids : List Nat) (rt : Nat) (fresh : List Block)
    (s : GameState) : (resolveTimeout ids rt fresh s).isGameOver = s.isGameOver := by
  unfold resolveTimeout addRow
  split <;> rfl

/-- Invariant: in every reachable state, an occupied top row implies the
game-over flag is already set (the `useEffect` re-checks after every grid
change). -/
lemma gameOver_invariant : ∀ s, Reachable s →
    isTopRowOccupied s.grid = true → s.isGameOver = true := by
  intro s h
  induction h with
  | init =>
    intro h0
    rw [show initialState.grid = [] from rfl, isTopRowOccupied_nil] at h0
    cases h0
  | step _ hstep ih =>
    cases hstep with
    | start m rows rt hrows =>
      intro hocc
      rw [checkGameOver_isGameOver]
      rw [checkGameOver_grid] at hocc
      rw [hocc]
      simp
    | click b =>
      intro hocc
      rw [handleBlockClick_grid] at hocc
      rw [handleBlockClick_isGameOver]
      exact ih hocc
    | resolve ids rt fresh hfresh =>
      intro hocc
      rw [checkGameOver_isGameOver]
      rw [checkGameOver_grid] at hocc
      rw [hocc]
      simp
    | tick fresh hfresh =>
      unfold tickStep
      split
      · split
        · intro hocc
          rw [checkGameOver_isGameOver]
          rw [checkGameOver_grid] at hocc
          rw [hocc]
          simp
        · exact ih
      · exact ih
    | pauseToggle => exact ih
    | reset rows rt hrows =>
      intro hocc
      rw [checkGameOver_isGameOver]
      rw [checkGameOver_grid] at hocc
      rw [hocc]
      simp
    | returnToMenu => exact ih
    | syncHighScore h => exact ih

/-- Claim C1: for every reachable state, (i) whenever row 0 is occupied the
round is already marked game over (the predicate is re-checked after every
grid mutation), and (ii) any event fired from a not-yet-over state ends in
game over exactly when row 0 of the resulting grid is occupied — i.e. the
round transitions to `gameOver` iff the top-row predicate holds at the
checkpoint immediately after the event's grid mutation. -/
theorem C1_gameOver_iff_topRow (s : GameState) (hs : Reachable s) :
    (isTopRowOccupied s.grid = true → s.isGameOver = true) ∧
    (∀ s', Step s s' → s.isGameOver = false →
      s'.isGameOver = isTopRowOccupied s'.grid) := by
  refine ⟨gameOver_invariant s hs, ?_⟩
  intro s' hstep hng
  have hocc : isTopRowOccupied s.grid = false := by
    cases hcase : isTopRowOccupied s.grid
    · rfl
    · rw [gameOver_invariant s hs hcase] at hng
      cases hng
  cases hstep with
  | start m rows rt hrows =>
    rw [checkGameOver_isGameOver, checkGameOver_grid, startGame_grid,
      startGame_isGameOver, isTopRowOccupied_mkInitialGrid]
    rfl
  | click b =>
    rw [handleBlockClick_isGameOver, handleBlockClick_grid, hng, hocc]
  | resolve ids rt fresh hfresh =>
    rw [checkGameOver_isGameOver, checkGameOver_grid,
      resolveTimeout_isGameOver, hng]
    rfl
  | tick fresh hfresh =>
    unfold tickStep
    split
    · split
      · rw [checkGameOver_isGameOver, checkGameOver_grid]
        rw [show (addRow fresh s).isGameOver = s.isGameOver from rfl, hng]
        rfl
      · show s.isGameOver = isTopRowOccupied s.grid
        rw [hng, hocc]
    · show s.isGameOver = isTopRowOccupied s.grid
      rw [hng, hocc]
  | pauseToggle =>
    show s.isGameOver = isTopRowOccupied s.grid
    rw [hng, hocc]
  | reset rows rt hrows =>
    rw [checkGameOver_isGameOver, checkGameOver_grid]
    show ((resetGame rows rt s).isGameOver || _) = _
    rw [show (resetGame rows rt s).isGameOver = false from rfl,
      show (resetGame rows rt s).grid = mkInitialGrid rows from rfl,
      isTopRowOccupied_mkInitialGrid]
    rfl
  | returnToMenu =>
    show s.isGameOver = isTopRowOccupied s.grid
    rw [hng, hocc]
  | syncHighScore h =>
    show s.isGameOver = isTopRowOccupied s.grid
    rw [hng, hocc]

/-- Witness for C1 at the initial state. -/
theorem C1_witness :
    (isTopRowOccupied initialState.grid = true → initialState.isGameOver = true) ∧
    (∀ s', Step initialState s' → initialState.isGameOver = false →
      s'.isGameOver = isTopRowOccupied s'.grid) :=
  C1_gameOver_iff_topRow initialState Reachable.init

/-- A concrete block used in witnesses. -/
def exBlock (i v : Nat) : Block := { id := i, value := v, isSelected := false }

/-- A concrete full row of six blocks with ids `k..k+5`. -/
def exRow (k : Nat) : List Block :=
  [exBlock k 1, exBlock (k + 1) 2, exBlock (k + 2) 3,
   exBlock (k + 3) 4, exBlock (k + 4) 5, exBlock (k + 5) 6]

/-- Three concrete initial rows. -/
def exRows : List (List Block) := [exRow 0, exRow 6, exRow 12]

/-- A concrete just-initialized grid. -/
def exGrid : Grid := mkInitialGrid exRows

/-- Claim C2: on a `ROWS`-row grid, `addRow`'s grid update is a silent no-op
when row 0 is occupied; otherwise each row `i < ROWS - 1` receives the
previous content of row `i + 1` and the bottom row becomes the fully
populated fresh row. -/
theorem C2_addRow_spec (g : Grid) (fresh : List Block)
    (hlen : g.length = ROWS) (hfresh : fresh.length = COLS) :
    (isTopRowOccupied g = true → addRowGrid fresh g = g) ∧
    (isTopRowOccupied g = false →
      (∀ i, i < ROWS - 1 → (addRowGrid fresh g)[i]? = g[i + 1]?) ∧
      (addRowGrid fresh g)[ROWS - 1]? = some (fresh.map some) ∧
      (fresh.map some).length = COLS ∧
      ∀ cell ∈ fresh.map some, cell.isSome = true) := by
  have hR : ROWS = 10 := rfl
  constructor
  · intro h
    unfold addRowGrid
    rw [if_pos h]
  · intro h
    have hA : addRowGrid fresh g = (List.range g.length).map (fun i =>
        if i = ROWS - 1 then fresh.map some else g.getD (i + 1) []) := by
      unfold addRowGrid
      rw [if_neg (by simp [h])]
    refine ⟨?_, ?_, ?_, ?_⟩
    · intro i hi
      have hig : i < g.length := by omega
      rw [hA, List.getElem?_map, List.getElem?_range hig, Option.map_some']
      rw [if_neg (by omega)]
      have hi1 : i + 1 < g.length := by omega
      simp [List.getD_eq_getElem?_getD, List.getElem?_eq_getElem hi1]
    · have hlast : ROWS - 1 < g.length := by omega
      rw [hA, List.getElem?_map, List.getElem?_range hlast, Option.map_some',
        if_pos rfl]
    · simp [hfresh]
    · intro cell hcell
      rw [List.mem_map] at hcell
      obtain ⟨a, _, ha⟩ := hcell
      subst ha
      rfl

/-- Witness for C2 at a concrete grid. -/
theorem C2_witness :
    (isTopRowOccupied exGrid = true → addRowGrid (exRow 18) exGrid = exGrid) ∧
    (isTopRowOccupied exGrid = false →
      (∀ i, i < ROWS - 1 → (addRowGrid (exRow 18) exGrid)[i]? = exGrid[i + 1]?) ∧
      (addRowGrid (exRow 18) exGrid)[ROWS - 1]? = some ((exRow 18).map some) ∧
      ((exRow 18).map some).length = COLS ∧
      ∀ cell ∈ (exRow 18).map some, cell.isSome = true) :=
  C2_addRow_spec exGrid (exRow 18) (by decide) (by decide)

/-- Claim C3: after `clearAndCompact` no removed id survives anywhere in the
grid, and every column `c < COLS` of the result is exactly its surviving
blocks (in their original top-to-bottom order) compacted at the bottom of
the column below a block-free prefix — so there is no empty cell below an
occupied one and columns do not interact. -/
theorem C3_clearAndCompact_spec (ids : List Nat) (g : Grid)
    (hlen : g.length = ROWS) :
    (∀ r c b, cellAt (clearAndCompact ids g) r c = some b → b.id ∉ ids) ∧
    (∀ c, c < COLS →
      getCol (clearAndCompact ids g) c
        = List.replicate (ROWS - (survivorsCol ids g c).length) none
            ++ (survivorsCol ids g c).map some) :=
  ⟨fun r c b h => cellAt_clearAndCompact_notMem ids g hlen r c b h,
   fun _ hc => getCol_clearAndCompact_eq ids g hlen hc⟩

/-- Witness for C3 at a concrete grid and removal set. -/
theorem C3_witness :
    (∀ r c b, cellAt (clearAndCompact [0, 7] exGrid) r c = some b → b.id ∉ [0, 7]) ∧
    (∀ c, c < COLS →
      getCol (clearAndCompact [0, 7] exGrid) c
        = List.replicate (ROWS - (survivorsCol [0, 7] exGrid c).length) none
            ++ (survivorsCol [0, 7] exGrid c).map some) :=
  C3_clearAndCompact_spec [0, 7] exGrid (by decide)

/-- Claim C6: on a well-formed grid whose columns carry no floating blocks
(the invariant every reachable grid satisfies), `clearAndCompact` with an
empty removal set is the identity; and for any removal set, applying
`clearAndCompact` twice with the same set equals applying it once. -/
theorem C6_gravity_idempotent (g : Grid) (hlen : g.length = ROWS)
    (hrows : ∀ row ∈ g, row.length = COLS)
    (hcomp : ∀ c, c < COLS → ColCompacted (getCol g c)) :
    clearAndCompact [] g = g ∧
    ∀ ids : List Nat,
      clearAndCompact ids (clearAndCompact ids g) = clearAndCompact ids g :=
  ⟨clearAndCompact_fixed [] g hlen hrows (removeIds_nil g) hcomp,
   fun ids => clearAndCompact_idem ids g hlen⟩

/-- Witness for C6 at a concrete grid. -/
theorem C6_witness :
    clearAndCompact [] exGrid = exGrid ∧
    ∀ ids : List Nat,
      clearAndCompact ids (clearAndCompact ids exGrid) = clearAndCompact ids exGrid :=
  C6_gravity_idempotent exGrid (by decide) (by decide) (by decide)

lemma generateTargetVal_bounds (rt : Nat) :
    TARGET_MIN ≤ generateTargetVal rt ∧ generateTargetVal rt ≤ TARGET_MAX := by
  have h : rt % (TARGET_MAX - TARGET_MIN + 1) < TARGET_MAX - TARGET_MIN + 1 :=
    Nat.mod_lt _ (by decide)
  have e1 : TARGET_MAX - TARGET_MIN + 1 = 16 := rfl
  have e2 : TARGET_MIN = 10 := rfl
  have e3 : TARGET_MAX = 25 := rfl
  unfold generateTargetVal
  omega

/-- A concrete playing state in classic mode. -/
def exPlayState : GameState :=
  { initialState with gameStarted := true
                      grid := exGrid
                      target := 15 }

/-- Claim C4: from a playing state (not over, not paused, the clicked block
not being cleared, not resolving), `handleBlockClick` flips membership of
the block's id, recomputes the sum of selected ids still present in the
grid, and: sum = target gives the Match outcome carrying exactly the new
selection; sum > target resets the selection to empty; sum < target keeps
the updated selection. -/
theorem C4_click_trichotomy (b : Block) (s : GameState)
    (h1 : s.isGameOver = false) (h2 : s.isPaused = false)
    (h3 : b.id ∉ s.clearingIds) (h4 : s.isProcessing = false) :
    (gridSum s.grid (toggleId s.selectedIds b.id) = s.target →
      handleBlockClick b s
        = (handleSuccessSync (toggleId s.selectedIds b.id) s,
            ClickOutcome.matched (toggleId s.selectedIds b.id))) ∧
    (s.target < gridSum s.grid (toggleId s.selectedIds b.id) →
      handleBlockClick b s = ({ s with selectedIds := [] }, ClickOutcome.overflow)) ∧
    (gridSum s.grid (toggleId s.selectedIds b.id) < s.target →
      handleBlockClick b s
        = ({ s with selectedIds := toggleId s.selectedIds b.id },
            ClickOutcome.pending)) := by
  have hguard : ¬(s.isGameOver = true ∨ s.isPaused = true ∨ b.id ∈ s.clearingIds
      ∨ s.isProcessing = true) := by
    simp [h1, h2, h3, h4]
  refine ⟨?_, ?_, ?_⟩ <;> intro h <;> unfold handleBlockClick <;> rw [if_neg hguard]
  · rw [if_pos h]
  · rw [if_neg (by omega), if_pos h]
  · rw [if_neg (by omega), if_neg (by omega)]

/-- Witness for C4 at a concrete block and state (its sum `1` is below the
target `15`, so the pending branch fires; the other branches hold
vacuously). -/
theorem C4_witness :
    (gridSum exPlayState.grid (toggleId exPlayState.selectedIds (exBlock 0 1).id)
        = exPlayState.target →
      handleBlockClick (exBlock 0 1) exPlayState
        = (handleSuccessSync (toggleId exPlayState.selectedIds (exBlock 0 1).id)
              exPlayState,
            ClickOutcome.matched (toggleId exPlayState.selectedIds (exBlock 0 1).id))) ∧
    (exPlayState.target
        < gridSum exPlayState.grid (toggleId exPlayState.selectedIds (exBlock 0 1).id) →
      handleBlockClick (exBlock 0 1) exPlayState
        = ({ exPlayState with selectedIds := [] }, ClickOutcome.overflow)) ∧
    (gridSum exPlayState.grid (toggleId exPlayState.selectedIds (exBlock 0 1).id)
        < exPlayState.target →
      handleBlockClick (exBlock 0 1) exPlayState
        = ({ exPlayState with
              selectedIds := toggleId exPlayState.selectedIds (exBlock 0 1).id },
            ClickOutcome.pending)) :=
  C4_click_trichotomy (exBlock 0 1) exPlayState rfl rfl (by decide) rfl

/-- The number of grid cells holding a block whose id is scheduled for
removal: the count of tiles a Match on `ids` actually clears. -/
def countCleared (g : Grid) (ids : List Nat) : Nat :=
  g.flatten.countP (fun cell =>
    match cell with
    | some b => decide (b.id ∈ ids)
    | none => false)

/-- Claim C5: a Match on `ids` clearing `N` tiles (each selected id matching
exactly one grid cell) adds exactly `10 × N` to the score, regenerates a
target inside `[TARGET_MIN, TARGET_MAX]`, clears the selection, and in
classic mode performs exactly one `addRow` after compaction (the grid is
`addRowGrid` of the compacted grid — `addRowGrid` itself suppresses the
injection when row 0 is occupied), while timed mode performs none. -/
theorem C5_match_effects (s : GameState) (ids : List Nat) (rt : Nat)
    (fresh : List Block) (N : Nat)
    (hproc : s.isProcessing = false)
    (hN : countCleared s.grid ids = N)
    (hids : ids.length = N) :
    ((resolveTimeout ids rt fresh (handleSuccessSync ids s)).score
        = s.score + 10 * N) ∧
    (TARGET_MIN ≤ (resolveTimeout ids rt fresh (handleSuccessSync ids s)).target ∧
      (resolveTimeout ids rt fresh (handleSuccessSync ids s)).target ≤ TARGET_MAX) ∧
    ((resolveTimeout ids rt fresh (handleSuccessSync ids s)).selectedIds = []) ∧
    (s.mode = GameMode.classic →
      (resolveTimeout ids rt fresh (handleSuccessSync ids s)).grid
        = addRowGrid fresh (clearAndCompact ids s.grid)) ∧
    (s.mode = GameMode.time →
      (resolveTimeout ids rt fresh (handleSuccessSync ids s)).grid
        = clearAndCompact ids s.grid) := by
  have hsync : handleSuccessSync ids s
      = { s with isProcessing := true
                 clearingIds := ids
                 score := s.score + ids.length * 10 } := by
    unfold handleSuccessSync
    rw [if_neg (by simp [hproc])]
  rw [hsync]
  unfold resolveTimeout addRow
  by_cases hmode : s.mode = GameMode.classic
  · rw [if_pos hmode]
    refine ⟨?_, generateTargetVal_bounds rt, rfl, fun _ => rfl, fun ht => ?_⟩
    · show s.score + ids.length * 10 = s.score + 10 * N
      rw [hids]
      ring
    · rw [hmode] at ht
      cases ht
  · rw [if_neg hmode]
    refine ⟨?_, generateTargetVal_bounds rt, rfl, fun hc => absurd hc hmode,
      fun _ => rfl⟩
    show s.score + ids.length * 10 = s.score + 10 * N
    rw [hids]
    ring

/-- Witness for C5: clearing the two blocks with ids 0 and 6 (two grid
cells) adds exactly 20 to the score. -/
theorem C5_witness :
    ((resolveTimeout [0, 6] 3 (exRow 18) (handleSuccessSync [0, 6] exPlayState)).score
        = exPlayState.score + 10 * 2) ∧
    (TARGET_MIN ≤ (resolveTimeout [0, 6] 3 (exRow 18)
          (handleSuccessSync [0, 6] exPlayState)).target ∧
      (resolveTimeout [0, 6] 3 (exRow 18)
          (handleSuccessSync [0, 6] exPlayState)).target ≤ TARGET_MAX) ∧
    ((resolveTimeout [0, 6] 3 (exRow 18)
        (handleSuccessSync [0, 6] exPlayState)).selectedIds = []) ∧
    (exPlayState.mode = GameMode.classic →
      (resolveTimeout [0, 6] 3 (exRow 18)
          (handleSuccessSync [0, 6] exPlayState)).grid
        = addRowGrid (exRow 18) (clearAndCompact [0, 6] exPlayState.grid)) ∧
    (exPlayState.mode = GameMode.time →
      (resolveTimeout [0, 6] 3 (exRow 18)
          (handleSuccessSync [0, 6] exPlayState)).grid
        = clearAndCompact [0, 6] exPlayState.grid) :=
  C5_match_effects exPlayState [0, 6] 3 (exRow 18) 2 rfl (by decide) rfl

lemma tickStep_decrement (fresh : List Block) (s : GameState)
    (h1 : s.gameStarted = true) (h2 : s.mode = GameMode.time)
    (h3 : s.isGameOver = false) (h4 : s.isPaused = false)
    (h5 : 100 < s.timeLeft) :
    tickStep fresh s = { s with timeLeft := s.timeLeft - 100 } := by
  unfold tickStep
  rw [if_pos ⟨h1, h2, h3, h4⟩, if_neg (by omega)]

lemma tickStep_iterate (fresh : List Block) (s : GameState)
    (h1 : s.gameStarted = true) (h2 : s.mode = GameMode.time)
    (h3 : s.isGameOver = false) (h4 : s.isPaused = false)
    (h5 : s.timeLeft = TIME_MODE_INTERVAL) :
    ∀ n, n ≤ 79 →
      (tickStep fresh)^[n] s = { s with timeLeft := TIME_MODE_INTERVAL - 100 * n } := by
  intro n
  induction n with
  | zero =>
    intro _
    show s = { s with timeLeft := TIME_MODE_INTERVAL - 100 * 0 }
    rw [show TIME_MODE_INTERVAL - 100 * 0 = TIME_MODE_INTERVAL from rfl, ← h5]
  | succ n ih =>
    intro hn
    rw [Function.iterate_succ_apply', ih (by omega)]
    rw [tickStep_decrement fresh { s with timeLeft := TIME_MODE_INTERVAL - 100 * n }
      h1 h2 h3 h4
      (by show 100 < TIME_MODE_INTERVAL - 100 * n
          have hT : TIME_MODE_INTERVAL = 8000 := rfl
          omega)]
    show { s with timeLeft := TIME_MODE_INTERVAL - 100 * n - 100 }
      = { s with timeLeft := TIME_MODE_INTERVAL - 100 * (n + 1) }
    have harith : TIME_MODE_INTERVAL - 100 * n - 100
        = TIME_MODE_INTERVAL - 100 * (n + 1) := by
      have hT : TIME_MODE_INTERVAL = 8000 := rfl
      omega
    rw [harith]

/-- Claim C7: in timed mode while playing, each interval firing decrements
`timeLeft` by 100 ms; across the first 79 firings (7900 ms of cumulative
elapsed time) the grid never changes, and the 80th firing — cumulative
elapsed time 8000 ms — performs exactly one row injection and resets
`timeLeft` to exactly `TIME_MODE_INTERVAL` (8000 ms). -/
theorem C7_timed_injection (s : GameState) (fresh : List Block)
    (h1 : s.gameStarted = true) (h2 : s.mode = GameMode.time)
    (h3 : s.isGameOver = false) (h4 : s.isPaused = false)
    (h5 : s.timeLeft = TIME_MODE_INTERVAL) :
    (∀ n, n < 80 → ((tickStep fresh)^[n] s).grid = s.grid ∧
      ((tickStep fresh)^[n] s).timeLeft = TIME_MODE_INTERVAL - 100 * n) ∧
    ((tickStep fresh)^[80] s).grid = addRowGrid fresh s.grid ∧
    ((tickStep fresh)^[80] s).timeLeft = TIME_MODE_INTERVAL := by
  have hiter := tickStep_iterate fresh s h1 h2 h3 h4 h5
  constructor
  · intro n hn
    rw [hiter n (by omega)]
    exact ⟨rfl, rfl⟩
  · rw [show (tickStep fresh)^[80] s = tickStep fresh ((tickStep fresh)^[79] s)
      from Function.iterate_succ_apply' (tickStep fresh) 79 s]
    rw [hiter 79 (by omega)]
    unfold tickStep
    rw [if_pos ⟨h1, h2, h3, h4⟩]
    rw [if_pos (by show TIME_MODE_INTERVAL - 100 * 79 ≤ 100; decide)]
    exact ⟨checkGameOver_grid _, by rw [checkGameOver_timeLeft]; rfl⟩

/-- A concrete playing state in timed mode. -/
def exTimedState : GameState :=
  { initialState with gameStarted := true
                      mode := GameMode.time
                      grid := exGrid
                      target := 15 }

/-- Witness for C7 at a concrete timed-mode state. -/
theorem C7_witness :
    (∀ n, n < 80 → ((tickStep (exRow 18))^[n] exTimedState).grid = exTimedState.grid ∧
      ((tickStep (exRow 18))^[n] exTimedState).timeLeft
        = TIME_MODE_INTERVAL - 100 * n) ∧
    ((tickStep (exRow 18))^[80] exTimedState).grid
      = addRowGrid (exRow 18) exTimedState.grid ∧
    ((tickStep (exRow 18))^[80] exTimedState).timeLeft = TIME_MODE_INTERVAL :=
  C7_timed_injection exTimedState (exRow 18) rfl rfl rfl rfl rfl

/-- Counterexample for C8's uniqueness guarantee: `generateBlock` derives the
id from a bare `Math.random` draw with no check against live tiles, so a
draw stream that repeats a value (here the constant-zero stream; the first
creation consumes draws 0 and 1, the next draws 2 and 3) yields two tiles
with the same id. -/
theorem C8_counterexample_shared_id :
    (generateBlock (fun _ => 0) 0).id = (generateBlock (fun _ => 0) 2).id := rfl

/-- Claim C8 (amended): every generated block has value in
`[BLOCK_MIN, BLOCK_MAX]` and is created unselected; the id is a random draw
with no uniqueness guarantee. -/
theorem C8_generateBlock_value_range (σ : Nat → Nat) (k : Nat) :
    BLOCK_MIN ≤ (generateBlock σ k).value ∧ (generateBlock σ k).value ≤ BLOCK_MAX ∧
    (generateBlock σ k).isSelected = false := by
  refine ⟨Nat.le_add_left _ _, ?_, rfl⟩
  show σ (k + 1) % (BLOCK_MAX - BLOCK_MIN + 1) + BLOCK_MIN ≤ BLOCK_MAX
  have h : σ (k + 1) % (BLOCK_MAX - BLOCK_MIN + 1) < BLOCK_MAX - BLOCK_MIN + 1 :=
    Nat.mod_lt _ (by decide)
  have e1 : BLOCK_MAX - BLOCK_MIN + 1 = 9 := rfl
  have e2 : BLOCK_MIN = 1 := rfl
  have e3 : BLOCK_MAX = 9 := rfl
  omega

/-- A concrete paused mid-round state. -/
def exPausedState : GameState :=
  { initialState with gameStarted := true
                      grid := exGrid
                      target := 15
                      isPaused := true }

/-- Counterexample for C9: `resetGame` only calls `initGrid`, which never
touches `isPaused`, so a reset issued from a paused state leaves the round
paused — the paused condition survives the reset. -/
theorem C9_counterexample_paused_survives :
    exPausedState.isPaused = true ∧
    (resetGame exRows 7 exPausedState).isPaused = true :=
  ⟨rfl, rfl⟩

/-- Claim C9 (amended): `resetGame` rebuilds the round in place — fresh grid
with only the bottom `INITIAL_ROWS` rows populated, fresh target in range,
score 0, empty selection, timer reset, game-over and processing flags
cleared, same mode — but it does not touch the paused flag (nor
`gameStarted`), so a reset issued while paused stays paused. -/
theorem C9_reset_spec (s : GameState) (rows : List (List Block)) (rt : Nat) :
    (resetGame rows rt s).grid = mkInitialGrid rows ∧
    (∀ i, i < ROWS - INITIAL_ROWS →
      (resetGame rows rt s).grid[i]? = some (List.replicate COLS none)) ∧
    (∀ i, (resetGame rows rt s).grid[ROWS - INITIAL_ROWS + i]?
        = (rows[i]?).map (fun row => row.map some)) ∧
    TARGET_MIN ≤ (resetGame rows rt s).target ∧
    (resetGame rows rt s).target ≤ TARGET_MAX ∧
    (resetGame rows rt s).score = 0 ∧
    (resetGame rows rt s).selectedIds = [] ∧
    (resetGame rows rt s).timeLeft = TIME_MODE_INTERVAL ∧
    (resetGame rows rt s).isGameOver = false ∧
    (resetGame rows rt s).isProcessing = false ∧
    (resetGame rows rt s).mode = s.mode ∧
    (resetGame rows rt s).gameStarted = s.gameStarted ∧
    (resetGame rows rt s).isPaused = s.isPaused := by
  refine ⟨rfl, ?_, ?_, (generateTargetVal_bounds rt).1, (generateTargetVal_bounds rt).2,
    rfl, rfl, rfl, rfl, rfl, rfl, rfl, rfl⟩
  · intro i hi
    show (mkInitialGrid rows)[i]? = _
    unfold mkInitialGrid
    rw [List.getElem?_append_left (by rw [List.length_replicate]; exact hi),
      List.getElem?_replicate_of_lt hi]
  · intro i
    show (mkInitialGrid rows)[ROWS - INITIAL_ROWS + i]? = _
    unfold mkInitialGrid
    rw [List.getElem?_append_right
        (by rw [List.length_replicate]; exact Nat.le_add_right _ _),
      List.length_replicate, Nat.add_sub_cancel_left, List.getElem?_map]

/-- Witness for C9's amended claim at a concrete paused state. -/
theorem C9_witness :
    (resetGame exRows 7 exPausedState).grid = mkInitialGrid exRows ∧
    (∀ i, i < ROWS - INITIAL_ROWS →
      (resetGame exRows 7 exPausedState).grid[i]? = some (List.replicate COLS none)) ∧
    (∀ i, (resetGame exRows 7 exPausedState).grid[ROWS - INITIAL_ROWS + i]?
        = (exRows[i]?).map (fun row => row.map some)) ∧
    TARGET_MIN ≤ (resetGame exRows 7 exPausedState).target ∧
    (resetGame exRows 7 exPausedState).target ≤ TARGET_MAX ∧
    (resetGame exRows 7 exPausedState).score = 0 ∧
    (resetGame exRows 7 exPausedState).selectedIds = [] ∧
    (resetGame exRows 7 exPausedState).timeLeft = TIME_MODE_INTERVAL ∧
    (resetGame exRows 7 exPausedState).isGameOver = false ∧
    (resetGame exRows 7 exPausedState).isProcessing = false ∧
    (resetGame exRows 7 exPausedState).mode = exPausedState.mode ∧
    (resetGame exRows 7 exPausedState).gameStarted = exPausedState.gameStarted ∧
    (resetGame exRows 7 exPausedState).isPaused = exPausedState.isPaused :=
  C9_reset_spec exPausedState exRows 7

/-- Claim C10: `addRow` unconditionally resets `timeLeft` to
`TIME_MODE_INTERVAL`, also when the injection is suppressed because row 0 is
occupied and the grid is left unchanged. -/
theorem C10_addRow_always_resets_timer (s : GameState) (fresh : List Block) :
    (addRow fresh s).timeLeft = TIME_MODE_INTERVAL ∧
    (isTopRowOccupied s.grid = true → (addRow fresh s).grid = s.grid) := by
  refine ⟨rfl, fun h => ?_⟩
  show addRowGrid fresh s.grid = s.grid
  unfold addRowGrid
  rw [if_pos h]

/-- A grid whose top row is fully occupied. -/
def exToppedGrid : Grid :=
  (exRow 30).map some :: List.replicate (ROWS - 1) (List.replicate COLS none)

/-- A concrete state with an occupied top row. -/
def exToppedState : GameState :=
  { initialState with gameStarted := true
                      grid := exToppedGrid
                      target := 12 }

/-- Witness for C10: at a state with an occupied top row, the injection is
suppressed yet the timer is reset. -/
theorem C10_witness :
    (addRow (exRow 40) exToppedState).timeLeft = TIME_MODE_INTERVAL ∧
    (addRow (exRow 40) exToppedState).grid = exToppedState.grid :=
  ⟨(C10_addRow_always_resets_timer exToppedState (exRow 40)).1,
   (C10_addRow_always_resets_timer exToppedState (exRow 40)).2 (by decide)⟩

end SumStack
